import Mathlib

/-!
Verification of the reminder bot (`src/bot.py`).

The Python source is shallowly embedded: strings are modelled as `List Char`,
the fallible external services (the OpenAI completion call, the Telegram
delete/send calls) are modelled as explicit `Except`-valued inputs, and the
handlers become pure functions from an inbound message plus the environment's
responses to a trace of outbound effects.
-/

/-- The whitespace predicate of Python's `str.strip()` restricted to ASCII:
space, tab, newline, carriage return, vertical tab, form feed. -/
def isPySpace (c : Char) : Bool :=
  c = ' ' || c = '\t' || c = '\n' || c = '\r' || c = '\x0b' || c = '\x0c'

/-- Python `s.strip()`: drop leading and trailing whitespace. -/
def stripChars (l : List Char) : List Char :=
  ((l.dropWhile isPySpace).reverse.dropWhile isPySpace).reverse

/-- Python `s.split('---')`: split on non-overlapping occurrences of the
literal delimiter `---`, scanning left to right greedily. -/
def splitDashes : List Char → List (List Char)
  | [] => [[]]
  | '-' :: '-' :: '-' :: rest => [] :: splitDashes rest
  | c :: rest =>
      match splitDashes rest with
      | [] => [[c]]
      | s :: ss => (c :: s) :: ss

/-- The Response Splitter of `parse_and_polish_message` (bot.py line 119):
`[reminder.strip() for reminder in polished_text.split('---') if reminder.strip()]`.
Since the produced value and the guard are both `reminder.strip()`, the
comprehension is map-strip followed by filter-nonempty. -/
def split_reminders (polished_text : List Char) : List (List Char) :=
  ((splitDashes polished_text).map stripChars).filter (fun r => !r.isEmpty)

/-- `parse_and_polish_message` (bot.py lines 64-126).  The completion call is
an input: `.ok content` is `response.choices[0].message.content`, `.error e`
is any exception raised by the invocation.  On success the content is
stripped and split on `---`; on any error the original user message is
returned as the single reminder. -/
def parse_and_polish_message (user_message : List Char)
    (completionResult : Except String (List Char)) : List (List Char) :=
  match completionResult with
  | .error _ => [user_message]
  | .ok content =>
      let polished_text := stripChars content
      split_reminders polished_text

/-! ## Calendar model

Python's `datetime` is modelled by its date part only (the source uses only
`weekday`, day-granularity `timedelta` arithmetic and date-field `strftime`
codes): a day is an `Int` counting days since 1970-01-01.  Field extraction
uses the standard civil-from-days algorithm; division is `Int`'s `/`, which
floors for positive divisors, as Python's `//` does. -/

/-- Python `datetime.weekday()`: Monday = 0 .. Sunday = 6.
Day 0 (1970-01-01) was a Thursday. -/
def weekday (z : Int) : Nat :=
  ((z + 3) % 7).toNat

/-- Day number of a civil date (proleptic Gregorian). -/
def daysFromCivil (y m d : Int) : Int :=
  let y2 := if m ≤ 2 then y - 1 else y
  let era := y2 / 400
  let yoe := y2 - era * 400
  let mp := (m + 9) % 12
  let doy := (153 * mp + 2) / 5 + d - 1
  let doe := yoe * 365 + yoe / 4 - yoe / 100 + doy
  era * 146097 + doe - 719468

/-- Civil date (year, month, day) of a day number. -/
def civilFromDays (z : Int) : Int × Int × Int :=
  let z2 := z + 719468
  let era := z2 / 146097
  let doe := z2 - era * 146097
  let yoe := (doe - doe / 1460 + doe / 36524 - doe / 146096) / 365
  let y := yoe + era * 400
  let doy := doe - (365 * yoe + yoe / 4 - yoe / 100)
  let mp := (5 * doy + 2) / 153
  let d := doy - (153 * mp + 2) / 5 + 1
  let m := if mp < 10 then mp + 3 else mp - 9
  (if m ≤ 2 then y + 1 else y, m, d)

/-- Full weekday names as produced by `strftime('%A')`, indexed Monday = 0. -/
def weekdayName : Nat → String
  | 0 => "Monday"
  | 1 => "Tuesday"
  | 2 => "Wednesday"
  | 3 => "Thursday"
  | 4 => "Friday"
  | 5 => "Saturday"
  | _ => "Sunday"

/-- Full month names as produced by `strftime('%B')`. -/
def monthName : Int → String
  | 1 => "January"
  | 2 => "February"
  | 3 => "March"
  | 4 => "April"
  | 5 => "May"
  | 6 => "June"
  | 7 => "July"
  | 8 => "August"
  | 9 => "September"
  | 10 => "October"
  | 11 => "November"
  | _ => "December"

/-- Zero-padded two-digit day of month, as `strftime('%d')`. -/
def pad2 (d : Int) : String :=
  if d < 10 then "0" ++ toString d else toString d

/-- `day.strftime('%A')`. -/
def strftimeA (z : Int) : String :=
  weekdayName (weekday z)

/-- `day.strftime('%B %d, %Y')`. -/
def strftimeBdY (z : Int) : String :=
  let c := civilFromDays z
  monthName c.2.1 ++ " " ++ pad2 c.2.2 ++ ", " ++ toString c.1

/-- One line of the calendar block:
`f"  {day.strftime('%A')}: {day.strftime('%B %d, %Y')}\n"`. -/
def dayLine (z : Int) : String :=
  "  " ++ strftimeA z ++ ": " ++ strftimeBdY z ++ "\n"

/-- The seven lines of one week, accumulated by the
`for i in range(7)` loops of `get_calendar_context`. -/
def weekLines (weekStart : Int) : String :=
  String.join ((List.range 7).map (fun (i : Nat) => dayLine (weekStart + (i : Int))))

/-- `get_calendar_context` (bot.py lines 28-61) with the wall-clock `today`
made an explicit argument. -/
def get_calendar_context (today : Int) : String :=
  let current_week_start := today - weekday today
  let prev_week_start := current_week_start - 7
  let next_week_start := current_week_start + 7
  "Current date: " ++ strftimeA today ++ ", " ++ strftimeBdY today ++ "\n\n"
    ++ "Previous week:\n" ++ weekLines prev_week_start
    ++ "\nCurrent week:\n" ++ weekLines current_week_start
    ++ "\nNext week:\n" ++ weekLines next_week_start

/-- The 21 day numbers whose entries make up the calendar text, in order:
previous week, current week, next week, each starting on Monday. -/
def calendarDayNumbers (today : Int) : List Int :=
  let cws := today - weekday today
  ((List.range 7).map (fun (i : Nat) => cws - 7 + (i : Int)))
    ++ ((List.range 7).map (fun (i : Nat) => cws + (i : Int)))
    ++ ((List.range 7).map (fun (i : Nat) => cws + 7 + (i : Int)))

/-! ## Handler model

An inbound text message and an inbound callback are records of the fields the
handlers read.  Each handler returns the ordered list of outbound effects it
performs; the results of the fallible Telegram calls are explicit inputs, and
a caught-and-logged exception contributes a `log` effect. -/

/-- One `InlineKeyboardButton(label, callback_data=data)`. -/
structure Button where
  label : List Char
  callback_data : List Char
  deriving DecidableEq, Repr

/-- The fields of `update.message` read by `handle_message`. -/
structure Msg where
  chat_id : Int
  message_id : Int
  text : List Char
  deriving DecidableEq, Repr

/-- The fields of `update.callback_query` read by `button_callback`:
the message carrying the pressed button, and `query.data`. -/
structure CallbackMsg where
  chat_id : Int
  message_id : Int
  deriving DecidableEq, Repr

/-- Outbound effects a handler can perform, in the order performed. -/
inductive Effect where
  | delete_message (chat_id message_id : Int)
  | invoke_completion (user_text : List Char)
  | send_message (chat_id : Int) (text : List Char) (buttons : List (List Button))
  | answer_callback (chat_id message_id : Int)
  | log (text : String)
  deriving DecidableEq, Repr

/-- `InlineKeyboardButton("✅ Done", callback_data="done")`. -/
def doneButton : Button :=
  { label := "✅ Done".toList, callback_data := "done".toList }

/-- `InlineKeyboardButton("❌ Cancel", callback_data="cancel")`. -/
def cancelButton : Button :=
  { label := "❌ Cancel".toList, callback_data := "cancel".toList }

/-- The one-row inline keyboard attached to every reminder message. -/
def reminderKeyboard : List (List Button) :=
  [[doneButton, cancelButton]]

/-- The `try/except` around a Telegram delete call: the attempt itself,
followed by the `logger.error` line when the call raised. -/
def deleteAttempt (chat_id message_id : Int) (logText : String)
    (deleteResult : Except String Unit) : List Effect :=
  Effect.delete_message chat_id message_id ::
    (match deleteResult with
      | .ok _ => []
      | .error e => [Effect.log (logText ++ e)])

/-- `handle_message` (bot.py lines 131-169): delete the original message
(best-effort), invoke the completion service through
`parse_and_polish_message`, then send one keyboarded message per reminder,
in order. -/
def handle_message (msg : Msg) (deleteResult : Except String Unit)
    (completionResult : Except String (List Char)) : List Effect :=
  deleteAttempt msg.chat_id msg.message_id "Error deleting message: " deleteResult
    ++ [Effect.invoke_completion msg.text]
    ++ (parse_and_polish_message msg.text completionResult).map
        (fun reminder => Effect.send_message msg.chat_id reminder reminderKeyboard)

/-- `button_callback` (bot.py lines 172-181): acknowledge the callback with
`query.answer()`, then delete the message that carried the button
(best-effort).  `payload` is `query.data`; the body never reads it. -/
def button_callback (cm : CallbackMsg) (_payload : List Char)
    (deleteResult : Except String Unit) : List Effect :=
  Effect.answer_callback cm.chat_id cm.message_id ::
    deleteAttempt cm.chat_id cm.message_id
      "Error deleting message after button press: " deleteResult

/-- The three handler registrations of `start_bot` (bot.py lines 210-212). -/
inductive Handler where
  | command (name : String)
  | message (textNotCommand : Bool)
  | callback_query (pattern : Option String)
  deriving DecidableEq, Repr

/-- `start_bot` registers, in order: `CommandHandler("start", ...)`,
`MessageHandler(filters.TEXT & ~filters.COMMAND, ...)`, and
`CallbackQueryHandler(button_callback)` with no pattern argument. -/
def start_bot_handlers : List Handler :=
  [Handler.command "start", Handler.message true, Handler.callback_query none]

/-! ## Liveness endpoint model -/

/-- `aiohttp.web.Response`: status code and body text. -/
structure WebResponse where
  status : Nat
  text : String
  deriving DecidableEq, Repr

/-- `health_check` (bot.py lines 184-186): ignores the request entirely. -/
def health_check {Request : Type} (_request : Request) : WebResponse :=
  { status := 200, text := "OK" }

/-- The port bound by `start_health_server` (bot.py line 196). -/
def health_server_port : Nat := 8080

/-- The GET routing table of the health app: `/health` is the one route
(bot.py line 192); any other path has no handler. -/
def serveHealthApp {Request : Type} (path : String) (request : Request) :
    Option WebResponse :=
  if path = "/health" then some (health_check request) else none

/-! ## Trace helpers -/

/-- Recognise a `send_message` effect. -/
def isSendMessage : Effect → Bool
  | .send_message _ _ _ => true
  | _ => false

/-- Recognise a `delete_message` effect. -/
def isDeleteMessage : Effect → Bool
  | .delete_message _ _ => true
  | _ => false

/-- The outbound sends of a trace, in order. -/
def sends (tr : List Effect) : List Effect :=
  tr.filter isSendMessage

/-- The deletion attempts of a trace, in order. -/
def deletes (tr : List Effect) : List Effect :=
  tr.filter isDeleteMessage

/-- Text blobs consisting only of `---` delimiters and whitespace: the class
of successful completion responses that claim C10 is about. -/
inductive DashWsBlob : List Char → Prop where
  | nil : DashWsBlob []
  | ws (c : Char) (rest : List Char) (hc : isPySpace c = true)
      (h : DashWsBlob rest) : DashWsBlob (c :: rest)
  | delim (rest : List Char) (h : DashWsBlob rest) :
      DashWsBlob ('-' :: '-' :: '-' :: rest)

/-! ## Lemmas about stripping and splitting -/

/-- Unfolding `splitDashes` on a cons that does not start a `---` delimiter. -/
theorem splitDashes_cons_ne (c : Char) (rest : List Char)
    (h : ∀ rest2 : List Char, c = '-' → rest = '-' :: '-' :: rest2 → False) :
    splitDashes (c :: rest) =
      match splitDashes rest with
      | [] => [[c]]
      | s :: ss => (c :: s) :: ss := by
  rw [splitDashes.eq_def]
  split
  · rename_i heq; exact absurd heq (by simp)
  · rename_i rest2 heq
    injection heq with h1 h2
    exact (h rest2 h1 h2).elim
  · rename_i c2 rest2 hne heq
    injection heq with h1 h2
    rw [h1, h2]

/-- `str.split` never returns an empty list of segments. -/
theorem splitDashes_ne_nil (l : List Char) : splitDashes l ≠ [] := by
  induction l using splitDashes.induct with
  | case1 => simp [splitDashes]
  | case2 rest ih => simp [splitDashes]
  | case3 c rest hne hnil ih => exact absurd hnil ih
  | case4 c rest hne s ss hcons ih =>
      rw [splitDashes_cons_ne c rest hne, hcons]
      simp

/-- Splitting a delimiter-and-whitespace blob yields only whitespace-only
segments. -/
theorem dashWs_segments (b : List Char) (hb : DashWsBlob b) :
    ∀ s ∈ splitDashes b, s.all isPySpace = true := by
  induction hb with
  | nil => intro s hs; simp [splitDashes] at hs; simp [hs]
  | ws c rest hc h ih =>
      intro s hs
      have hcne : ∀ rest2 : List Char, c = '-' → rest = '-' :: '-' :: rest2 → False := by
        intro rest2 h1 _
        rw [h1] at hc
        exact absurd hc (by decide)
      rw [splitDashes_cons_ne c rest hcne] at hs
      rcases hsplit : splitDashes rest with - | ⟨t, ts⟩
      · exact absurd hsplit (splitDashes_ne_nil rest)
      · rw [hsplit] at hs
        simp only [List.mem_cons] at hs
        rcases hs with rfl | hs
        · have ht : t.all isPySpace = true :=
            ih t (by rw [hsplit]; exact List.mem_cons_self t ts)
          simp [List.all_cons, hc, ht]
        · exact ih s (by rw [hsplit]; exact List.mem_cons_of_mem t hs)
  | delim rest h ih =>
      intro s hs
      have hd : splitDashes ('-' :: '-' :: '-' :: rest) = [] :: splitDashes rest := by
        simp [splitDashes]
      rw [hd] at hs
      simp only [List.mem_cons] at hs
      rcases hs with rfl | hs
      · simp
      · exact ih s hs

/-- Dropping leading whitespace preserves being a delimiter-and-whitespace
blob. -/
theorem dashWs_dropWhile (b : List Char) (hb : DashWsBlob b) :
    DashWsBlob (b.dropWhile isPySpace) := by
  induction hb with
  | nil => exact DashWsBlob.nil
  | ws c rest hc h ih => rwa [List.dropWhile_cons_of_pos hc]
  | delim rest h ih =>
      rw [List.dropWhile_cons_of_neg (by simp [isPySpace])]
      exact DashWsBlob.delim rest h

/-- Dropping trailing whitespace preserves being a delimiter-and-whitespace
blob. -/
theorem dashWs_stripTrail (b : List Char) (hb : DashWsBlob b) :
    DashWsBlob ((b.reverse.dropWhile isPySpace).reverse) := by
  induction hb with
  | nil => exact DashWsBlob.nil
  | ws c rest hc h ih =>
      rw [List.reverse_cons, List.dropWhile_append]
      by_cases he : (rest.reverse.dropWhile isPySpace).isEmpty = true
      · rw [if_pos he, List.dropWhile_cons_of_pos hc]
        exact DashWsBlob.nil
      · rw [if_neg he, List.reverse_append, List.reverse_cons, List.reverse_nil,
          List.nil_append]
        exact DashWsBlob.ws c _ hc ih
  | delim rest h ih =>
      have hrw : ('-' :: '-' :: '-' :: rest).reverse = rest.reverse ++ ['-', '-', '-'] := by
        simp
      rw [hrw, List.dropWhile_append]
      by_cases he : (rest.reverse.dropWhile isPySpace).isEmpty = true
      · rw [if_pos he]
        have hdw : List.dropWhile isPySpace ['-', '-', '-'] = ['-', '-', '-'] := by decide
        rw [hdw]
        exact DashWsBlob.delim [] DashWsBlob.nil
      · rw [if_neg he, List.reverse_append]
        have hrev : (['-', '-', '-'] : List Char).reverse = ['-', '-', '-'] := by decide
        rw [hrev]
        exact DashWsBlob.delim _ ih

/-- A whitespace-only string strips to the empty string. -/
theorem stripChars_of_all_ws (s : List Char) (h : s.all isPySpace = true) :
    stripChars s = [] := by
  unfold stripChars
  have h1 : s.dropWhile isPySpace = [] :=
    List.dropWhile_eq_nil_iff.mpr (fun x hx => List.all_eq_true.mp h x hx)
  rw [h1]
  simp

/-- A nonempty stripped string is not whitespace-only: its first character
survived `dropWhile isPySpace`. -/
theorem stripChars_all_isPySpace_eq_false (s : List Char)
    (h : stripChars s ≠ []) : (stripChars s).all isPySpace = false := by
  unfold stripChars at h ⊢
  set u := ((s.dropWhile isPySpace).reverse).dropWhile isPySpace with hu
  have hne : u ≠ [] := by
    intro hnil
    exact h (by rw [hnil]; rfl)
  rw [List.all_reverse]
  rw [List.all_eq_false]
  refine ⟨u.head hne, List.head_mem hne, ?_⟩
  have := List.head_dropWhile_not isPySpace (s.dropWhile isPySpace).reverse
    (by rw [← hu]; exact hne)
  simp only [← hu] at this
  simp [this]

/-! ## Claims -/

/-- C1: if the completion invocation raises any error,
`parse_and_polish_message` returns a sequence of exactly one item, and that
item is character-for-character the original user input text. -/
theorem claim_C1 (user_message : List Char) (e : String) :
    parse_and_polish_message user_message (Except.error e) = [user_message] ∧
      (parse_and_polish_message user_message (Except.error e)).length = 1 :=
  ⟨rfl, rfl⟩

/-- C2: every segment returned by the Response Splitter is neither empty nor
whitespace-only, and the returned segments appear in the same relative order
as in the input blob (the output is a sublist of the trimmed split of the
blob). -/
theorem claim_C2 (blob : List Char) (r : List Char)
    (hr : r ∈ split_reminders blob) :
    r ≠ [] ∧ r.all isPySpace = false ∧
      List.Sublist (split_reminders blob) ((splitDashes blob).map stripChars) := by
  refine ⟨?_, ?_, List.filter_sublist _⟩
  · rcases List.mem_filter.mp hr with ⟨-, hkeep⟩
    simpa using hkeep
  · rcases List.mem_filter.mp hr with ⟨hmem, hkeep⟩
    rcases List.mem_map.mp hmem with ⟨s, -, rfl⟩
    exact stripChars_all_isPySpace_eq_false s (by simpa using hkeep)

/-- C2 witness: the splitter output of `"a--- ---b"` contains `"a"`, which is
nonempty and not whitespace-only. -/
theorem claim_C2_witness :
    (['a'] ∈ split_reminders ("a--- ---b".toList)) ∧
      (['a'] ≠ [] ∧ List.all ['a'] isPySpace = false ∧
        List.Sublist (split_reminders ("a--- ---b".toList))
          ((splitDashes ("a--- ---b".toList)).map stripChars)) :=
  ⟨by decide, claim_C2 ("a--- ---b".toList) ['a'] (by decide)⟩

/-- Day `i` of the calendar grid (offset `i` from the previous week's Monday)
falls on weekday `i % 7`: the grid's weeks start on Monday and cycle through
the weekday names in order. -/
theorem weekday_week_offset (today : Int) (i : Nat) :
    weekday (today - weekday today - 7 + i) = i % 7 := by
  unfold weekday
  omega

/-- C3: for every fixed `today` the Calendar Context Builder produces exactly
21 day entries, 7 per week, the current week starting on the Monday
`today - weekday today`; entry `i` of the grid is the date at offset `i - 7`
days from that Monday and is labeled with the weekday name of position
`i % 7` (Monday first); the emitted text is exactly the header plus the three
week blocks over those 21 days.  Worked example: for `today` = 2026-01-14, a
Wednesday, the current week's Monday entry is 2026-01-12. -/
theorem claim_C3 (today : Int) :
    (calendarDayNumbers today).length = 21 ∧
      weekday (today - weekday today) = 0 ∧
      calendarDayNumbers today =
        (List.range 21).map (fun (i : Nat) => today - weekday today - 7 + (i : Int)) ∧
      (∀ i : Fin 21,
        strftimeA (today - weekday today - 7 + (i.val : Int)) =
          weekdayName (i.val % 7)) ∧
      get_calendar_context today =
        "Current date: " ++ strftimeA today ++ ", " ++ strftimeBdY today ++ "\n\n"
          ++ "Previous week:\n"
          ++ String.join (((calendarDayNumbers today).take 7).map dayLine)
          ++ "\nCurrent week:\n"
          ++ String.join ((((calendarDayNumbers today).drop 7).take 7).map dayLine)
          ++ "\nNext week:\n"
          ++ String.join (((calendarDayNumbers today).drop 14).map dayLine) ∧
      weekday (daysFromCivil 2026 1 14) = 2 ∧
      strftimeA (daysFromCivil 2026 1 14) = "Wednesday" ∧
      daysFromCivil 2026 1 14 - (weekday (daysFromCivil 2026 1 14) : Int) =
        daysFromCivil 2026 1 12 ∧
      strftimeA (daysFromCivil 2026 1 12) = "Monday" ∧
      strftimeBdY (daysFromCivil 2026 1 12) = "January 12, 2026" := by
  refine ⟨?_, ?_, ?_, ?_, ?_, by decide, by decide, by decide, by decide, by decide⟩
  · simp only [calendarDayNumbers, List.length_append, List.length_map, List.length_range]
  · unfold weekday
    omega
  · simp only [calendarDayNumbers, List.range_succ, List.range_zero, List.map_append,
      List.map_cons, List.map_nil, List.append_assoc, List.nil_append, List.cons_append,
      List.append_nil, List.cons.injEq, and_true, true_and]
    norm_num
    omega
  · intro i
    rw [strftimeA, weekday_week_offset]
  · simp only [get_calendar_context, weekLines, calendarDayNumbers, List.range_succ,
      List.range_zero, List.map_append, List.map_cons, List.map_nil, List.append_assoc,
      List.nil_append, List.cons_append, List.append_nil, List.take_cons,
      List.drop_succ_cons, List.drop_zero, List.take_succ_cons, List.take_zero]

/-- The sends of a `handle_message` trace are exactly one keyboarded message
per parsed reminder, to the originating chat, in sequence order. -/
theorem sends_handle_message (msg : Msg) (deleteResult : Except String Unit)
    (completionResult : Except String (List Char)) :
    sends (handle_message msg deleteResult completionResult) =
      (parse_and_polish_message msg.text completionResult).map
        (fun reminder => Effect.send_message msg.chat_id reminder reminderKeyboard) := by
  cases deleteResult <;>
    simp [sends, handle_message, deleteAttempt, List.filter_append, List.filter_map,
      isSendMessage, Function.comp_def]

/-- A `handle_message` trace contains exactly one deletion attempt. -/
theorem deletes_handle_message (msg : Msg) (deleteResult : Except String Unit)
    (completionResult : Except String (List Char)) :
    deletes (handle_message msg deleteResult completionResult) =
      [Effect.delete_message msg.chat_id msg.message_id] := by
  cases deleteResult <;>
    simp [deletes, handle_message, deleteAttempt, List.filter_append, List.filter_map,
      isDeleteMessage, Function.comp_def]

/-- C4 counterexample: on a concrete one-reminder input, `handle_message`
sends exactly one interactive message, but its two button labels are
`"✅ Done"` and `"❌ Cancel"`, not `"Done"` and `"Cancel"` as the claim
states. -/
theorem claim_C4_counterexample :
    sends (handle_message { chat_id := 1, message_id := 2, text := "buy milk".toList }
        (Except.ok ()) (Except.ok ("Buy milk".toList))) =
      [Effect.send_message 1 ("Buy milk".toList) [[doneButton, cancelButton]]] ∧
      doneButton.label ≠ "Done".toList ∧ cancelButton.label ≠ "Cancel".toList := by
  decide

/-- C4 (amended): for every reminder sequence of length N produced by
parsing, `handle_message` sends exactly N outbound messages to the
originating chat, in sequence order, each carrying that item's text and
exactly two action affordances, labeled `"✅ Done"` and `"❌ Cancel"`. -/
theorem claim_C4 (msg : Msg) (deleteResult : Except String Unit)
    (completionResult : Except String (List Char)) :
    sends (handle_message msg deleteResult completionResult) =
      (parse_and_polish_message msg.text completionResult).map
        (fun reminder => Effect.send_message msg.chat_id reminder reminderKeyboard) ∧
      (sends (handle_message msg deleteResult completionResult)).length =
        (parse_and_polish_message msg.text completionResult).length ∧
      reminderKeyboard =
        [[{ label := "✅ Done".toList, callback_data := "done".toList },
          { label := "❌ Cancel".toList, callback_data := "cancel".toList }]] := by
  refine ⟨sends_handle_message msg deleteResult completionResult, ?_, rfl⟩
  rw [sends_handle_message msg deleteResult completionResult, List.length_map]

/-- C5: on an outbound interactive message, the "done" action and the
"cancel" action produce identical handler traces: acknowledge the callback,
then exactly one deletion attempt for that message. -/
theorem claim_C5 (cm : CallbackMsg) (deleteResult : Except String Unit) :
    button_callback cm ("done".toList) deleteResult =
        button_callback cm ("cancel".toList) deleteResult ∧
      (button_callback cm ("done".toList) deleteResult).head? =
        some (Effect.answer_callback cm.chat_id cm.message_id) ∧
      deletes (button_callback cm ("done".toList) deleteResult) =
        [Effect.delete_message cm.chat_id cm.message_id] ∧
      deletes (button_callback cm ("cancel".toList) deleteResult) =
        [Effect.delete_message cm.chat_id cm.message_id] := by
  cases deleteResult <;>
    simp [button_callback, deleteAttempt, deletes, isDeleteMessage]

/-- C6: a deletion failure is logged and swallowed.  In `handle_message` the
failed attempt is followed by the log line, the completion invocation and all
N reminder sends: the sends are the same as on a successful delete, and the
single deletion attempt is never retried.  In `button_callback` the failed
attempt likewise only adds a log line. -/
theorem claim_C6 (msg : Msg) (cm : CallbackMsg) (payload : List Char)
    (e : String) (completionResult : Except String (List Char)) :
    handle_message msg (Except.error e) completionResult =
        Effect.delete_message msg.chat_id msg.message_id ::
          Effect.log ("Error deleting message: " ++ e) ::
          Effect.invoke_completion msg.text ::
          (parse_and_polish_message msg.text completionResult).map
            (fun reminder => Effect.send_message msg.chat_id reminder reminderKeyboard) ∧
      sends (handle_message msg (Except.error e) completionResult) =
        sends (handle_message msg (Except.ok ()) completionResult) ∧
      deletes (handle_message msg (Except.error e) completionResult) =
        [Effect.delete_message msg.chat_id msg.message_id] ∧
      button_callback cm payload (Except.error e) =
        [Effect.answer_callback cm.chat_id cm.message_id,
          Effect.delete_message cm.chat_id cm.message_id,
          Effect.log ("Error deleting message after button press: " ++ e)] := by
  refine ⟨rfl, ?_, deletes_handle_message msg (Except.error e) completionResult, rfl⟩
  rw [sends_handle_message msg (Except.error e) completionResult,
    sends_handle_message msg (Except.ok ()) completionResult]

/-- C7: `handle_message` is a send-free prefix followed by the reminder
sends: the deletion attempt for the original message comes first, then the
completion invocation, and only then the dispatched sends — no send ever
precedes the deletion attempt. -/
theorem claim_C7 (msg : Msg) (deleteResult : Except String Unit)
    (completionResult : Except String (List Char)) :
    handle_message msg deleteResult completionResult =
        (deleteAttempt msg.chat_id msg.message_id "Error deleting message: " deleteResult
            ++ [Effect.invoke_completion msg.text])
          ++ sends (handle_message msg deleteResult completionResult) ∧
      (handle_message msg deleteResult completionResult).head? =
        some (Effect.delete_message msg.chat_id msg.message_id) ∧
      sends (deleteAttempt msg.chat_id msg.message_id "Error deleting message: "
          deleteResult ++ [Effect.invoke_completion msg.text]) = [] := by
  refine ⟨?_, ?_, ?_⟩
  · rw [sends_handle_message msg deleteResult completionResult]
    cases deleteResult <;> simp [handle_message, deleteAttempt]
  · cases deleteResult <;> simp [handle_message, deleteAttempt]
  · cases deleteResult <;> simp [sends, deleteAttempt, List.filter_append, isSendMessage]

/-- C8: the health route of the liveness app, bound to port 8080, answers
every request with status 200 and body `OK`; `health_check` ignores its
request entirely. -/
theorem claim_C8 {Request : Type} (request : Request) :
    serveHealthApp "/health" request = some { status := 200, text := "OK" } ∧
      health_check request = { status := 200, text := "OK" } ∧
      health_server_port = 8080 := by
  refine ⟨?_, rfl, rfl⟩
  simp [serveHealthApp, health_check]

/-- C9: the callback handler is registered without any payload pattern, and
`button_callback` never inspects the payload: every payload string whatsoever
produces the identical acknowledge-then-delete trace. -/
theorem claim_C9 (cm : CallbackMsg) (payload : List Char)
    (deleteResult : Except String Unit) :
    Handler.callback_query none ∈ start_bot_handlers ∧
      button_callback cm payload deleteResult =
        button_callback cm ("done".toList) deleteResult ∧
      (button_callback cm payload deleteResult).head? =
        some (Effect.answer_callback cm.chat_id cm.message_id) ∧
      deletes (button_callback cm payload deleteResult) =
        [Effect.delete_message cm.chat_id cm.message_id] := by
  refine ⟨by decide, rfl, ?_, ?_⟩ <;>
    cases deleteResult <;>
      simp [button_callback, deleteAttempt, deletes, isDeleteMessage]

/-- Parsing a successful completion response that consists only of `---`
delimiters and whitespace yields the empty reminder sequence. -/
theorem parse_dashWs (user : List Char) (b : List Char) (hb : DashWsBlob b) :
    parse_and_polish_message user (Except.ok b) = [] := by
  show split_reminders (stripChars b) = []
  have hsb : DashWsBlob (stripChars b) := by
    unfold stripChars
    exact dashWs_stripTrail _ (dashWs_dropWhile _ hb)
  unfold split_reminders
  rw [List.filter_eq_nil_iff]
  intro a ha
  rcases List.mem_map.mp ha with ⟨s, hs, rfl⟩
  rw [stripChars_of_all_ws s (dashWs_segments _ hsb s hs)]
  simp

/-- C10: for any successful completion response consisting only of `---`
delimiters and whitespace, `parse_and_polish_message` returns the empty
sequence and `handle_message` sends zero outbound messages — while its trace
still begins with the deletion attempt for the user's original message, so
the input is silently discarded. -/
theorem claim_C10 (user : List Char) (msg : Msg) (deleteResult : Except String Unit)
    (blob : List Char) (hb : DashWsBlob blob) :
    parse_and_polish_message user (Except.ok blob) = [] ∧
      sends (handle_message msg deleteResult (Except.ok blob)) = [] ∧
      (handle_message msg deleteResult (Except.ok blob)).head? =
        some (Effect.delete_message msg.chat_id msg.message_id) := by
  refine ⟨parse_dashWs user blob hb, ?_, ?_⟩
  · rw [sends_handle_message msg deleteResult (Except.ok blob),
      parse_dashWs msg.text blob hb]
    rfl
  · cases deleteResult <;> simp [handle_message, deleteAttempt]

/-- C10 witness: the blob `"--- \n---"` consists only of delimiters and
whitespace, parses to the empty sequence, and the resulting `handle_message`
trace deletes the original message and sends nothing. -/
theorem claim_C10_witness :
    DashWsBlob ("--- \n---".toList) ∧
      (parse_and_polish_message ("buy milk".toList)
          (Except.ok ("--- \n---".toList)) = [] ∧
        sends (handle_message { chat_id := 1, message_id := 2, text := "buy milk".toList }
          (Except.ok ()) (Except.ok ("--- \n---".toList))) = [] ∧
        (handle_message { chat_id := 1, message_id := 2, text := "buy milk".toList }
            (Except.ok ()) (Except.ok ("--- \n---".toList))).head? =
          some (Effect.delete_message 1 2)) := by
  have hb : DashWsBlob ("--- \n---".toList) :=
    DashWsBlob.delim _ (DashWsBlob.ws ' ' _ (by decide)
      (DashWsBlob.ws '\n' _ (by decide) (DashWsBlob.delim _ DashWsBlob.nil)))
  exact ⟨hb, claim_C10 ("buy milk".toList)
    { chat_id := 1, message_id := 2, text := "buy milk".toList } (Except.ok ())
    ("--- \n---".toList) hb⟩
